import Mathlib

/-!
# Verification of the VendorFolderMonitoring anomaly-detection core

Shallow embedding of the python sources `missing_files_alert.py` and
`vendor_folder_mon.py`, together with theorems settling the specification
claims about them.

Modelling conventions:
* `datetime` values produced by `strptime("%Y%m%d_%H%M%S")` are modelled by
  `PDateTime` (calendar fields); `datetime` values produced by
  `fromtimestamp(epoch)` are modelled by the epoch seconds themselves
  (`Int`), with `.time()` modelled as `epoch mod 86400` and `.date()`
  irrelevant for those values in the code paths below.
* `time` (time-of-day) objects are modelled as seconds since midnight
  (`Nat`, in `[0, 86400)`); python compares them lexicographically by
  (hour, minute, second), which coincides with comparison of the second
  counts.
* `re.compile`-based matching is an oracle function supplied in the
  environment; `validate_regex` is likewise an oracle `String → Bool`.
* File-system state for the real-time fallback scan is an explicit
  association list of folders.
-/

deriving instance DecidableEq for Except

namespace VendorMon

/-- A calendar date, as compared by python `datetime.date`
(lexicographically by year, month, day). -/
structure PDate where
  year : Nat
  month : Nat
  day : Nat
deriving DecidableEq, Repr

/-- Python `date` comparison `d1 < d2` (lexicographic). -/
def PDate.ltb (d1 d2 : PDate) : Bool :=
  decide (d1.year < d2.year ∨
    (d1.year = d2.year ∧ (d1.month < d2.month ∨
      (d1.month = d2.month ∧ d1.day < d2.day))))

/-- A naive `datetime` as produced by
`datetime.strptime(s, "%Y%m%d_%H%M%S")` in `parse_metrics`. -/
structure PDateTime where
  year : Nat
  month : Nat
  day : Nat
  hour : Nat
  minute : Nat
  second : Nat
deriving DecidableEq, Repr

/-- `datetime.date()` of a parsed capture time. -/
def PDateTime.dateOf (t : PDateTime) : PDate :=
  ⟨t.year, t.month, t.day⟩

/-- One parsed metrics record, as appended by `parse_metrics`
(line 64-71 of `missing_files_alert.py`): folder name, regex pattern,
capture time, median time-of-day (seconds since midnight), and the
earliest/latest arrival instants (epoch seconds, python
`datetime.fromtimestamp(int(...))`). -/
structure Metric where
  folder : String
  regex : String
  capture : PDateTime
  medianTime : Nat
  earliest : Int
  latest : Int
deriving DecidableEq, Repr

/-- `datetime.fromtimestamp(e).time()`, as seconds since midnight. -/
def tod (e : Int) : Nat := (e % 86400).toNat

/-- `THRESHOLD_MINS = 10` (line 32 of `missing_files_alert.py`),
expressed in seconds. -/
def thresholdSecs : Nat := 600

/-- The median a sorted list of time-of-day values gets in
`calculate_median_window` (lines 89-95): for odd length the middle
element; for even length the lower middle element advanced by
`(t2 - t1).seconds // 120` minutes, i.e. `60 * ((t2 - t1) / 120)`
seconds. -/
def medianOfSorted (s : List Nat) : Nat :=
  let n := s.length
  if n % 2 = 0 then
    s.getD (n / 2 - 1) 0 + 60 * ((s.getD (n / 2) 0 - s.getD (n / 2 - 1) 0) / 120)
  else
    s.getD (n / 2) 0

/-- `calculate_median_window` (lines 85-99 of `missing_files_alert.py`):
`None` on an empty list, otherwise sort, take the median as above, and
return `(median - 10min, median + 10min)` as time-of-day values (the
python `datetime.combine`/`timedelta` round trip wraps modulo one day). -/
def calculate_median_window (times : List Nat) : Option (Nat × Nat) :=
  if times = [] then none
  else
    let s := List.insertionSort (· ≤ ·) times
    let m := medianOfSorted s
    some ((m + 86400 - thresholdSecs) % 86400, (m + thresholdSecs) % 86400)

/-- Python `times[-5:]`: the last `n` elements of a list. -/
def lastN (n : Nat) (l : List α) : List α := l.drop (l.length - n)

/-- The window estimation step of `check_missing_files`
(lines 191-192): a window is computed only when at least 5 historical
times exist, from the last 5 of them; otherwise the feed is skipped,
which we render as `none`. -/
def estimateWindow (times : List Nat) : Option (Nat × Nat) :=
  if 5 ≤ times.length then calculate_median_window (lastN 5 times) else none

/-- The median of the last five times, around which `estimateWindow`
builds its window. -/
def estMedian (times : List Nat) : Nat :=
  medianOfSorted (List.insertionSort (· ≤ ·) (lastN 5 times))

/-- The median `calculate_median_window` computes for a full sample:
sort, then `medianOfSorted`. -/
def codeMedian (times : List Nat) : Nat :=
  medianOfSorted (List.insertionSort (· ≤ ·) times)

/-- The lower of the two middle values of the sorted sample
(`times[n // 2 - 1]` on line 92). -/
def evenLow (times : List Nat) : Nat :=
  (List.insertionSort (· ≤ ·) times).getD (times.length / 2 - 1) 0

/-- The higher of the two middle values of the sorted sample
(`times[n // 2]` on line 93). -/
def evenHigh (times : List Nat) : Nat :=
  (List.insertionSort (· ≤ ·) times).getD (times.length / 2) 0

/-! ## The snapshot parser (`parse_metrics`, lines 40-74) -/

/-- Value of a list of decimal digit characters. -/
def digitsToNat (cs : List Char) : Nat :=
  cs.foldl (fun acc c => acc * 10 + (c.toNat - 48)) 0

/-- `datetime.strptime(s, "%Y%m%d_%H%M%S")` for the fixed-width form the
snapshot files use: 4+2+2 digits, an underscore, and 2+2+2 digits, with
calendar-field range checks; any other string raises (modelled as
`none`). -/
def parseDateTime (s : String) : Option PDateTime :=
  match s.toList with
  | [y1, y2, y3, y4, m1, m2, d1, d2, u, h1, h2, n1, n2, s1, s2] =>
    if u = '_' ∧ ([y1, y2, y3, y4, m1, m2, d1, d2, h1, h2, n1, n2, s1, s2].all Char.isDigit) then
      let y := digitsToNat [y1, y2, y3, y4]
      let mo := digitsToNat [m1, m2]
      let d := digitsToNat [d1, d2]
      let h := digitsToNat [h1, h2]
      let mi := digitsToNat [n1, n2]
      let se := digitsToNat [s1, s2]
      if 1 ≤ mo ∧ mo ≤ 12 ∧ 1 ≤ d ∧ d ≤ 31 ∧ h ≤ 23 ∧ mi ≤ 59 ∧ se ≤ 59 then
        some ⟨y, mo, d, h, mi, se⟩
      else none
    else none
  | _ => none

/-- Python `s.split(sep)` for a single-character separator, on the
character list: splitting keeps empty fragments, and splitting the empty
string yields one empty fragment. -/
def splitCharList (sep : Char) : List Char → List (List Char)
  | [] => [[]]
  | c :: cs =>
    let r := splitCharList sep cs
    if c = sep then [] :: r
    else
      match r with
      | [] => [[c]]
      | g :: gs => (c :: g) :: gs

/-- Python `s.split(sep)` for a single-character separator (the only
kind the source uses: `"|"`, `"#"`, `","`, `":"`). -/
def pySplit (sep : Char) (s : String) : List String :=
  (splitCharList sep s.toList).map (fun cs => String.mk cs)

/-- Python `s.strip()`: remove leading and trailing whitespace. -/
def pyStrip (s : String) : String :=
  String.mk (((s.toList.dropWhile Char.isWhitespace).reverse.dropWhile
    Char.isWhitespace).reverse)

/-- A one- or two-digit numeric field, as accepted by python `%H`/`%M`. -/
def parse12Digits (s : String) : Option Nat :=
  match s.toList with
  | [c] => if c.isDigit then some (c.toNat - 48) else none
  | [c1, c2] => if c1.isDigit ∧ c2.isDigit then some ((c1.toNat - 48) * 10 + (c2.toNat - 48)) else none
  | _ => none

/-- `datetime.strptime(s, "%H:%M").time()`, as seconds since midnight. -/
def parseHM (s : String) : Option Nat :=
  match pySplit ':' s with
  | [hs, ms] =>
    match parse12Digits hs, parse12Digits ms with
    | some h, some m => if h ≤ 23 ∧ m ≤ 59 then some (h * 3600 + m * 60) else none
    | _, _ => none
  | _ => none

/-- Python `int(s)` on a decimal string: leading/trailing whitespace is
stripped and an optional sign is allowed; failure raises `ValueError`,
modelled as `none`. -/
def parseIntPy (s : String) : Option Int :=
  match (pyStrip s).toList with
  | [] => none
  | c :: ds =>
    if c = '-' then
      if ds ≠ [] ∧ ds.all Char.isDigit then some (-(digitsToNat ds : Int)) else none
    else if c = '+' then
      if ds ≠ [] ∧ ds.all Char.isDigit then some ((digitsToNat ds : Int)) else none
    else if (c :: ds).all Char.isDigit then some ((digitsToNat (c :: ds) : Int))
    else none

/-- One pipe-delimited pattern entry of a snapshot row (the body of the
`for entry in file_description.split("|")` loop, lines 55-73).  Every
exception the loop body can raise is caught by the surrounding
`try/except`, so a malformed entry yields `none` (the entry is skipped);
`vr` is the `validate_regex` oracle. -/
def parseEntry (vr : String → Bool) (folder : String) (capture : PDateTime)
    (entry : String) : Option Metric :=
  match pySplit '#' entry with
  | [regex, params0] =>
    let params := pyStrip params0
    if vr regex then
      match pySplit ',' params with
      | [c, msz, mt, e, l] =>
        if c ≠ "None" ∧ msz ≠ "None" ∧ mt ≠ "None" ∧ e ≠ "None" ∧ l ≠ "None" then
          match parseHM mt, parseIntPy e, parseIntPy l with
          | some m, some ei, some li => some ⟨folder, regex, capture, m, ei, li⟩
          | _, _, _ => none
        else none
      | _ => none
    else none
  | _ => none

/-- Python `row[i]`: out-of-range access raises `IndexError`, which in
`parse_metrics` is not caught and aborts the load. -/
def getField (row : List String) (i : Nat) : Except String String :=
  match row.get? i with
  | some s => Except.ok s
  | none => Except.error "IndexError"

/-- Processing of a single data row of a snapshot file (the body of the
`for row in reader` loop, lines 47-73).  The accesses `row[8]`, `row[1]`
and the `strptime` of `row[0]` happen outside the `try`, so their
failures abort the whole load (`Except.error`); a row whose capture hour
exceeds the current hour, or whose description is the `"None"` sentinel,
is skipped; otherwise each pattern entry is parsed, malformed entries
being dropped individually. -/
def parseRow (vr : String → Bool) (curHour : Nat) (row : List String) :
    Except String (List Metric) := do
  let desc ← getField row 8
  let folder ← getField row 1
  let f0 ← getField row 0
  match parseDateTime f0 with
  | none => Except.error "ValueError"
  | some capture =>
    if curHour < capture.hour ∨ desc = "None" then
      Except.ok []
    else
      Except.ok ((pySplit '|' desc).filterMap (parseEntry vr folder capture))

/-- `parse_metrics` (lines 40-74) over the data rows of one file (the
header line already skipped): rows are processed in order, their metrics
accumulated; an uncaught exception in any row aborts the load, losing
all metrics. -/
def parse_metrics (vr : String → Bool) (curHour : Nat)
    (rows : List (List String)) : Except String (List Metric) :=
  rows.foldlM (fun acc row => do
    let ms ← parseRow vr curHour row
    pure (acc ++ ms)) []

/-! ## The real-time fallback scan and the main loop
(`check_missing_files`, lines 126-233) -/

/-- A directory entry of a monitored folder: name, whether it is a
regular file, and its modification date. -/
structure FSFile where
  name : String
  isFile : Bool
  mtimeDate : PDate
deriving DecidableEq, Repr

/-- The file-system state visible to `real_time_folder_check`: the
monitored folders (under `FEED_DIR`) and their listings. -/
structure FS where
  folders : List (String × List FSFile)

/-- The environment of one run of `check_missing_files`: the file
system, today's date (`datetime.now().date()`), and the `re`-match
oracle `reMatch regex fileName`. -/
structure Env where
  fs : FS
  today : PDate
  reMatch : String → String → Bool

/-- `real_time_folder_check` (lines 126-144): `False` when the folder
does not exist, otherwise whether some regular file in it was modified
today and matches the pattern. -/
def realTimeFolderCheck (env : Env) (folder regex : String) : Bool :=
  match env.fs.folders.lookup folder with
  | none => false
  | some files =>
    files.any (fun f => f.isFile && (f.mtimeDate == env.today) && env.reMatch regex f.name)

/-- One persisted state entry (`load_state`/`save_state`): arrival
count, last seen latest-arrival instant (epoch seconds), and status. -/
structure StateEntry where
  count : Int
  lastTime : Int
  status : Bool
deriving DecidableEq, Repr

/-- A feed identity: (folder, regex). -/
abbrev FeedKey := String × String

/-- A persisted state mapping, keyed by feed. -/
abbrev StateDict := List (FeedKey × StateEntry)

/-- The mutable outputs of `check_missing_files`: the new success and
failure states being built, and the missing-files report lines. -/
structure Acc where
  newSuccess : StateDict
  newFailure : StateDict
  report : List String
deriving DecidableEq, Repr

/-- The feed keys of a metrics list in first-occurrence order — the
iteration order of the `defaultdict` built on lines 162-165. -/
def groupKeys (ms : List Metric) : List FeedKey :=
  ms.foldl (fun ks m =>
    let k := (m.folder, m.regex)
    if k ∈ ks then ks else ks ++ [k]) []

/-- `max(record["latest"] for record in records ...)` (line 173); the
filter `if record["latest"]` never rejects a `datetime`, and the group
list is nonempty whenever its key occurs. -/
def latestOf (records : List Metric) : Int :=
  ((records.map (·.latest)).max?).getD 0

/-- The historical arrival times of a group (lines 186-189): time-of-day
of `earliest` for the records captured strictly before today. -/
def historicalTimes (today : PDate) (records : List Metric) : List Nat :=
  (records.filter (fun r => PDate.ltb r.capture.dateOf today)).map (fun r => tod r.earliest)

/-- Today's records of a group (lines 198-200). -/
def todayRecords (today : PDate) (records : List Metric) : List Metric :=
  records.filter (fun r => r.capture.dateOf == today)

/-- Zero-padded two-digit rendering, as in python `str(time)`. -/
def pad2 (n : Nat) : String := if n < 10 then "0" ++ toString n else toString n

/-- Python `str` of a time-of-day value: `HH:MM:SS`. -/
def timeStr (t : Nat) : String :=
  pad2 (t / 3600) ++ ":" ++ pad2 (t % 3600 / 60) ++ ":" ++ pad2 (t % 60)

/-- One report line (lines 212-214). -/
def windowLine (folder regex : String) (lo hi : Nat) : String :=
  "Folder: " ++ folder ++ ", Pattern: " ++ regex ++
    ", Expected Window: " ++ timeStr lo ++ "-" ++ timeStr hi

/-- The evaluation of one feed once the skip check has fallen through
(lines 185-223): estimate the window from the historical times; when a
window exists, a today record inside it records success, otherwise the
real-time fallback decides whether an anomaly line and a failure entry
are produced; with no window the feed is skipped. -/
def evalFeed (env : Env) (acc : Acc) (k : FeedKey) (records : List Metric)
    (latest : Int) : Acc :=
  let times := historicalTimes env.today records
  match estimateWindow times with
  | some (lo, hi) =>
    let tr := todayRecords env.today records
    let within := tr.any (fun r => decide (lo ≤ tod r.earliest ∧ tod r.earliest ≤ hi))
    if within then
      { acc with newSuccess := acc.newSuccess ++ [(k, ⟨Int.ofNat tr.length, latest, true⟩)] }
    else if realTimeFolderCheck env k.1 k.2 then acc
    else
      { acc with
        newFailure := acc.newFailure ++ [(k, ⟨0, latest, false⟩)],
        report := acc.report ++ [windowLine k.1 k.2 lo hi] }
  | none => acc

/-- The body of the per-feed loop (lines 171-223): a feed present in the
prior success state whose latest arrival is unchanged is carried forward
without re-evaluation; otherwise it is evaluated. -/
def processKey (env : Env) (success : StateDict) (acc : Acc) (k : FeedKey)
    (records : List Metric) : Acc :=
  let latest := latestOf records
  match success.lookup k with
  | some prev =>
    if latest = prev.lastTime then
      { acc with newSuccess := acc.newSuccess ++ [(k, prev)] }
    else evalFeed env acc k records latest
  | none => evalFeed env acc k records latest

/-- `check_missing_files` from the grouping step onward (lines 161-227),
taking the parsed metrics and the two loaded states as inputs.  The
loaded failure state is never consulted by the loop (it is only loaded
on line 151); both new states start empty. -/
def checkMissingFiles (env : Env) (success _failure : StateDict)
    (ms : List Metric) : Acc :=
  (groupKeys ms).foldl
    (fun acc k => processKey env success acc k (ms.filter (fun m => (m.folder, m.regex) == k)))
    ⟨[], [], []⟩

/-- The report writer (lines 230-232): each finding line followed by a
newline, concatenated in order; nothing else is written. -/
def render (findings : List String) : String :=
  findings.foldl (fun acc e => acc ++ (e ++ "\n")) ""

/-- A data row that `parse_metrics` can process without an uncaught
exception: at least nine fields and a capture timestamp `strptime`
accepts.  (The entries inside the description field may still be
arbitrarily malformed — those failures are caught.) -/
def RowOk (row : List String) : Prop :=
  9 ≤ row.length ∧ (parseDateTime (row.getD 0 "")).isSome = true

instance (row : List String) : Decidable (RowOk row) := by
  unfold RowOk
  infer_instance

/-! ## `vendor_folder_mon.py`

The size/growth monitor variant.  File sizes are naturals; epoch
instants and all statistics are rationals (python floats are used only
as exact arithmetic on these values in the code paths below). -/

/-- One per-folder metrics entry produced by `get_feed_metrics`
(lines 57-64 of `vendor_folder_mon.py`). -/
structure VFeed where
  folderName : String
  fileCount : Nat
  totalSize : Nat
  fileSizes : List Nat
  fileArrivalTimes : List ℚ
  timestamp : ℚ
deriving DecidableEq, Repr

/-- The alert kinds `monitor_feeds` can send (lines 173-193), in program
order. -/
inductive VAlert where
  | zeroByte
  | fewerFiles
  | sizeRange
  | outsideWindow
  | notGrowing
deriving DecidableEq, Repr

/-- `statistics.median`: sort; middle element for odd length, mean of
the two middle elements for even length; raises on an empty list
(modelled as `none`). -/
def pyMedian (l : List ℚ) : Option ℚ :=
  if l = [] then none
  else
    let s := List.insertionSort (· ≤ ·) l
    let n := s.length
    if n % 2 = 1 then some (s.getD (n / 2) 0)
    else some ((s.getD (n / 2 - 1) 0 + s.getD (n / 2) 0) / 2)

/-- `statistics.quantiles(data, n=10)` with the default exclusive
method: sort, and for `i = 1..9` interpolate between the neighbours of
position `i*(len+1)/10`; raises when fewer than two data points exist
(modelled as `none`). -/
def pyQuantiles10 (data : List ℚ) : Option (List ℚ) :=
  if data.length < 2 then none
  else
    let d := List.insertionSort (· ≤ ·) data
    let ld := data.length
    let m := ld + 1
    some ((List.range 9).map (fun i0 =>
      let i := i0 + 1
      let j0 := (i * m) / 10
      let delta := (i * m) % 10
      let j := min (max j0 1) (ld - 1)
      (d.getD (j - 1) 0 * ((10 : ℚ) - (delta : ℕ)) + d.getD j 0 * ((delta : ℕ) : ℚ)) / 10))

/-- The per-folder statistics computed by `calculate_median_metrics`
(lines 116-125). -/
structure VStats where
  medianFileCount : ℚ
  medianFileSize : ℚ
  p10 : ℚ
  p90 : ℚ
  medianArrivalTime : ℚ
  maxFileSize : ℚ
deriving DecidableEq, Repr

/-- The distinct folder names of a metrics list, in first-occurrence
order (the iteration order of the `folder_metrics` dict). -/
def vfolders (past : List VFeed) : List String :=
  past.foldl (fun ks f => if f.folderName ∈ ks then ks else ks ++ [f.folderName]) []

/-- The accumulated `file_counts` of one folder (lines 111). -/
def folderCounts (past : List VFeed) (folder : String) : List ℚ :=
  (past.filter (fun f => f.folderName == folder)).map (fun f => (f.fileCount : ℚ))

/-- The accumulated `file_sizes` of one folder (line 112). -/
def folderSizes (past : List VFeed) (folder : String) : List ℚ :=
  (past.filter (fun f => f.folderName == folder)).flatMap
    (fun f => f.fileSizes.map (fun n => (n : ℚ)))

/-- The accumulated `file_arrival_times` of one folder (line 113). -/
def folderTimes (past : List VFeed) (folder : String) : List ℚ :=
  (past.filter (fun f => f.folderName == folder)).flatMap (·.fileArrivalTimes)

/-- The statistics of one folder (lines 118-125): each aggregate guards
the empty list with a default of 0, but `statistics.quantiles` on a
single size raises `StatisticsError`, aborting the whole computation
(`Except.error`). -/
def statsFor (counts sizes times : List ℚ) : Except Unit VStats :=
  let mc := if counts = [] then 0 else (pyMedian counts).getD 0
  let msz := if sizes = [] then 0 else (pyMedian sizes).getD 0
  let mat := if times = [] then 0 else (pyMedian times).getD 0
  let mx := if sizes = [] then 0 else (sizes.max?).getD 0
  if sizes = [] then Except.ok ⟨mc, msz, 0, 0, mat, mx⟩
  else
    match pyQuantiles10 sizes with
    | none => Except.error ()
    | some q => Except.ok ⟨mc, msz, q.getD 0 0, q.getD 8 0, mat, mx⟩

/-- `calculate_median_metrics` (lines 98-127). -/
def calculateMedianMetrics (past : List VFeed) : Except Unit (List (String × VStats)) :=
  (vfolders past).mapM (fun f =>
    (statsFor (folderCounts past f) (folderSizes past f) (folderTimes past f)).map
      (fun s => (f, s)))

/-- `calculate_dynamic_time_window` (lines 130-141): the extremes of all
past arrival instants, `None` when there are none. -/
def calculateDynamicTimeWindow (past : List VFeed) : Option ℚ × Option ℚ :=
  let all := past.flatMap (·.fileArrivalTimes)
  (all.min?, all.max?)

/-- Python truthiness of an optional float (`if earliest_time and ...`):
`None` and `0.0` are falsy. -/
def pyTruthy (x : Option ℚ) : Bool :=
  match x with
  | none => false
  | some q => q != 0

/-- `folder_median.get('10th_percentile_size', 0)` (line 167). -/
def feedP10 (medians : List (String × VStats)) (folder : String) : ℚ :=
  ((medians.lookup folder).map (·.p10)).getD 0

/-- `folder_median.get('max_file_size', 50GB)` (line 166). -/
def feedMaxFS (medians : List (String × VStats)) (folder : String) : ℚ :=
  ((medians.lookup folder).map (·.maxFileSize)).getD (50 * 1024 * 1024 * 1024)

/-- `folder_median.get('90th_percentile_size', max_file_size)`
(line 168). -/
def feedP90 (medians : List (String × VStats)) (folder : String) : ℚ :=
  ((medians.lookup folder).map (·.p90)).getD (feedMaxFS medians folder)

/-- `folder_median.get('median_file_count', 0)` (line 164). -/
def feedMedCount (medians : List (String × VStats)) (folder : String) : ℚ :=
  ((medians.lookup folder).map (·.medianFileCount)).getD 0

/-- The alert decisions for one feed in the `monitor_feeds` loop
(lines 155-193), as the ordered trace of alerts sent and a flag telling
whether the final growth check raised `StatisticsError` (which happens
exactly when the folder has no past `total_size` samples; the alerts
already sent are unaffected, since `send_alert` fires eagerly). -/
def monitorFeedChecks (feed : VFeed) (medians : List (String × VStats))
    (past : List VFeed) (currentTime : ℚ) : List VAlert × Bool :=
  let p10 := feedP10 medians feed.folderName
  let p90 := feedP90 medians feed.folderName
  let medCount := feedMedCount medians feed.folderName
  let ew := calculateDynamicTimeWindow past
  let a1 : List VAlert := if feed.fileSizes.any (fun s => s == 0) then [.zeroByte] else []
  let a2 : List VAlert := if (feed.fileCount : ℚ) < medCount then [.fewerFiles] else []
  let a3 : List VAlert :=
    if feed.fileSizes.any (fun s => decide ((s : ℚ) < p10) || decide (p90 < (s : ℚ))) then
      [.sizeRange]
    else []
  let a4 : List VAlert :=
    if pyTruthy ew.1 && pyTruthy ew.2 &&
        !(decide (ew.1.getD 0 ≤ currentTime) && decide (currentTime ≤ ew.2.getD 0)) then
      [.outsideWindow]
    else []
  let pastSizes :=
    (past.filter (fun f => f.folderName == feed.folderName)).map (fun f => (f.totalSize : ℚ))
  match pyMedian pastSizes with
  | none => (a1 ++ a2 ++ a3 ++ a4, true)
  | some med =>
    (a1 ++ a2 ++ a3 ++ a4 ++
      (if decide ((feed.totalSize : ℚ) < med) && decide (feed.totalSize ≠ 0) then
        [.notGrowing]
      else []), false)

/-! ## Concrete fixtures used by counterexamples and witnesses -/

/-- A capture time on 2024-01-01, 09:00:00. -/
def fixCap : PDateTime := ⟨2024, 1, 1, 9, 0, 0⟩

/-- "Today" for the fixtures: 2024-01-02, so `fixCap` is historical. -/
def fixToday : PDate := ⟨2024, 1, 2⟩

/-- A historical metric for feed `(f, r)` whose `earliest` has
time-of-day `e` and whose `latest` is the epoch instant 1000. -/
def fixMetric (f r : String) (e : Int) : Metric := ⟨f, r, fixCap, 0, e, 1000⟩

/-- Five historical records for one feed with earliest arrival times
09:00, 09:05, 09:10, 09:15, 09:20. -/
def fixFeed (f r : String) : List Metric :=
  [fixMetric f r 32400, fixMetric f r 32700, fixMetric f r 33000,
   fixMetric f r 33300, fixMetric f r 33600]

/-- An environment with an empty feed directory (every folder scan comes
back negative) and a never-matching pattern oracle. -/
def fixEnv : Env := ⟨⟨[]⟩, fixToday, fun _ _ => false⟩

/-- Metrics for two feeds, folder "b" first, then folder "a". -/
def fixMetricsBA : List Metric := fixFeed "b" "p" ++ fixFeed "a" "p"

/-- The run of `check_missing_files` on `fixMetricsBA` with empty prior
state: both feeds are anomalous. -/
def fixRunBA : Acc := checkMissingFiles fixEnv [] [] fixMetricsBA

/-- A first run on the single feed `("b", "p")` with empty prior state. -/
def fixRun1 : Acc := checkMissingFiles fixEnv [] [] (fixFeed "b" "p")

/-- A second run with identical inputs, loading the state the first run
saved. -/
def fixRun2 : Acc := checkMissingFiles fixEnv fixRun1.newSuccess fixRun1.newFailure (fixFeed "b" "p")

/-- A data row with too few fields: `row[8]` raises `IndexError`. -/
def fixBadRow : List String := ["20240101_090000", "fold", "x"]

/-- A well-formed data row with one valid pattern entry. -/
def fixGoodRow : List String :=
  ["20240101_080000", "fold", "", "", "", "", "", "", "pat.*#1,10,08:00,100,200"]

/-- The metric `fixGoodRow` parses to. -/
def fixGoodMetric : Metric := ⟨"fold", "pat.*", ⟨2024, 1, 1, 8, 0, 0⟩, 28800, 100, 200⟩

/-- A row whose description holds two valid entries around a malformed
one. -/
def fixMixedRow : List String :=
  ["20240101_080000", "fold", "", "", "", "", "", "",
   "a#1,2,03:00,4,5|malformed|b#1,2,03:00,6,7"]

/-- A well-formed data row whose capture hour is 23. -/
def fixLateRow : List String :=
  ["20240101_230000", "fold", "", "", "", "", "", "", "x#1,2,03:00,4,5"]

/-- A well-formed data row whose description is the "None" sentinel. -/
def fixNoneRow : List String :=
  ["20240101_090000", "fold", "", "", "", "", "", "", "None"]

/-- Five past entries for vendor folder "v" with one file each, sizes
100, 150, 120, 110, 130. -/
def fixPastV : List VFeed :=
  [⟨"v", 1, 100, [100], [], 0⟩, ⟨"v", 1, 150, [150], [], 0⟩,
   ⟨"v", 1, 120, [120], [], 0⟩, ⟨"v", 1, 110, [110], [], 0⟩,
   ⟨"v", 1, 130, [130], [], 0⟩]

/-- Today's entry for folder "v": a 0-byte file and a 5000-byte file. -/
def fixFeedV : VFeed := ⟨"v", 2, 5000, [0, 5000], [], 0⟩

end VendorMon


namespace VendorMon

lemma lastN_ne_nil {l : List Nat} (h : 5 ≤ l.length) : lastN 5 l ≠ [] := by
  intro hn
  have h2 : (lastN 5 l).length = 5 := by simp [lastN]; omega
  rw [hn] at h2
  simp at h2

theorem C1_window_invariant (times : List Nat) (h5 : 5 ≤ times.length)
    (hlo : thresholdSecs ≤ estMedian times)
    (hhi : estMedian times + thresholdSecs < 86400) :
    estimateWindow times =
      some (estMedian times - thresholdSecs, estMedian times + thresholdSecs) ∧
    estMedian times - thresholdSecs ≤ estMedian times ∧
    estMedian times ≤ estMedian times + thresholdSecs ∧
    (estMedian times + thresholdSecs) - (estMedian times - thresholdSecs) =
      2 * thresholdSecs := by
  have hne := lastN_ne_nil h5
  set m := estMedian times with hm
  rw [thresholdSecs] at hlo hhi ⊢
  refine ⟨?_, by omega, by omega, by omega⟩
  rw [estimateWindow, if_pos h5, calculate_median_window, if_neg hne]
  have hmed : medianOfSorted (List.insertionSort (· ≤ ·) (lastN 5 times)) = m := rfl
  simp only [thresholdSecs, hmed]
  have h1 : (m + 86400 - 600) % 86400 = m - 600 := by omega
  have h2 : (m + 600) % 86400 = m + 600 := by omega
  rw [h1, h2]

end VendorMon

namespace VendorMon

theorem C2_even_median (times : List Nat) (hne : times ≠ [])
    (heven : times.length % 2 = 0) :
    (codeMedian times : ℚ) =
      ((evenLow times : ℚ) + evenHigh times) / 2 -
        (((evenHigh times - evenLow times) % 120 : ℕ) : ℚ) / 2 ∧
    ((evenHigh times - evenLow times) % 120 = 0 →
      (codeMedian times : ℚ) = ((evenLow times : ℚ) + evenHigh times) / 2) ∧
    calculate_median_window times =
      some ((codeMedian times + 86400 - thresholdSecs) % 86400,
            (codeMedian times + thresholdSecs) % 86400) := by
  rw [codeMedian, evenLow, evenHigh]
  set s := List.insertionSort (· ≤ ·) times with hsdef
  set a := s.getD (times.length / 2 - 1) 0 with hadef
  set b := s.getD (times.length / 2) 0 with hbdef
  have hlen : s.length = times.length := List.length_insertionSort _ times
  have hn2 : 2 ≤ times.length := by
    rcases times with _ | ⟨x, _ | ⟨y, l⟩⟩
    · exact absurd rfl hne
    · simp at heven
    · simp
  have hi2 : times.length / 2 < s.length := by rw [hlen]; omega
  have hi1 : times.length / 2 - 1 < s.length := by omega
  have hab : a ≤ b := by
    have hs : List.Sorted (· ≤ ·) s := List.sorted_insertionSort _ times
    have ha : a = s.get ⟨times.length / 2 - 1, hi1⟩ := by
      rw [hadef, List.getD_eq_getElem?_getD, List.getElem?_eq_getElem hi1]
      simp
    have hb : b = s.get ⟨times.length / 2, hi2⟩ := by
      rw [hbdef, List.getD_eq_getElem?_getD, List.getElem?_eq_getElem hi2]
      simp
    rw [ha, hb]
    exact hs.rel_get_of_lt (by simp [Fin.lt_def]; omega)
  have hmed : medianOfSorted s = a + 60 * ((b - a) / 120) := by
    rw [medianOfSorted]
    simp only [hlen]
    rw [if_pos heven]
  have hcast : (120 : ℚ) * (((b - a) / 120 : ℕ) : ℚ) + (((b - a) % 120 : ℕ) : ℚ) =
      (b : ℚ) - a := by
    have hdm : 120 * ((b - a) / 120) + (b - a) % 120 = b - a := Nat.div_add_mod _ 120
    have := congrArg (fun n : ℕ => (n : ℚ)) hdm
    push_cast at this
    rw [this]
    push_cast [Nat.cast_sub hab]
    ring
  refine ⟨?_, ?_, ?_⟩
  · rw [hmed]
    push_cast
    linarith
  · intro hz
    rw [hmed]
    have h0 : ((b - a) / 120) * 120 = b - a := Nat.div_mul_cancel (Nat.dvd_of_mod_eq_zero hz)
    have hcast2 : (((b - a) / 120 : ℕ) : ℚ) * 120 = (b : ℚ) - a := by
      have := congrArg (fun n : ℕ => (n : ℚ)) h0
      push_cast at this
      rw [this]
      push_cast [Nat.cast_sub hab]
      ring
    push_cast
    linarith
  · rw [calculate_median_window, if_neg hne]

theorem C1_counterexample :
    estimateWindow [32400, 32700, 33000, 33300, 33600] = some (32400, 33600) ∧
    ((32400 : Nat), (33600 : Nat)) ≠ ((31800 : Nat), (34200 : Nat)) ∧
    estMedian [300, 300, 300, 300, 300] = 300 ∧
    estimateWindow [300, 300, 300, 300, 300] = some (86100, 900) ∧
    ¬ (86100 ≤ estMedian [300, 300, 300, 300, 300]) := by decide

theorem C1_window_invariant_witness :
    estimateWindow [32400, 32700, 33000, 33300, 33600] =
      some (estMedian [32400, 32700, 33000, 33300, 33600] - thresholdSecs,
            estMedian [32400, 32700, 33000, 33300, 33600] + thresholdSecs) ∧
    estMedian [32400, 32700, 33000, 33300, 33600] - thresholdSecs ≤
      estMedian [32400, 32700, 33000, 33300, 33600] ∧
    estMedian [32400, 32700, 33000, 33300, 33600] ≤
      estMedian [32400, 32700, 33000, 33300, 33600] + thresholdSecs ∧
    (estMedian [32400, 32700, 33000, 33300, 33600] + thresholdSecs) -
      (estMedian [32400, 32700, 33000, 33300, 33600] - thresholdSecs) =
      2 * thresholdSecs :=
  C1_window_invariant [32400, 32700, 33000, 33300, 33600]
    (by decide) (by decide) (by decide)

theorem C2_counterexample :
    medianOfSorted [32400, 32460, 32520, 32580] = 32460 ∧
    ((32460 : ℚ) + 32520) / 2 ≠ (32460 : ℚ) ∧
    calculate_median_window [32400, 32460, 32520, 32580] = some (31860, 33060) ∧
    calculate_median_window [32400, 32460, 32520, 32580] ≠ some (31890, 33090) :=
  ⟨by decide, by norm_num, by decide, by decide⟩

theorem C2_even_median_witness :
    (codeMedian [32400, 32460, 32520, 32580] : ℚ) =
      ((evenLow [32400, 32460, 32520, 32580] : ℚ) + evenHigh [32400, 32460, 32520, 32580]) / 2 -
        (((evenHigh [32400, 32460, 32520, 32580] - evenLow [32400, 32460, 32520, 32580]) % 120 : ℕ) : ℚ) / 2 ∧
    ((evenHigh [32400, 32460, 32520, 32580] - evenLow [32400, 32460, 32520, 32580]) % 120 = 0 →
      (codeMedian [32400, 32460, 32520, 32580] : ℚ) =
        ((evenLow [32400, 32460, 32520, 32580] : ℚ) + evenHigh [32400, 32460, 32520, 32580]) / 2) ∧
    calculate_median_window [32400, 32460, 32520, 32580] =
      some ((codeMedian [32400, 32460, 32520, 32580] + 86400 - thresholdSecs) % 86400,
            (codeMedian [32400, 32460, 32520, 32580] + thresholdSecs) % 86400) :=
  C2_even_median [32400, 32460, 32520, 32580] (by decide) (by decide)

end VendorMon

namespace VendorMon

theorem C3_counterexample :
    fixRun1.newFailure = [(("b", "p"), ⟨0, 1000, false⟩)] ∧
    latestOf ((fixFeed "b" "p").filter (fun m => (m.folder, m.regex) == ("b", "p"))) = 1000 ∧
    fixRun2.report = fixRun1.report ∧
    fixRun1.report ≠ [] ∧
    fixRun2.newSuccess = fixRun1.newSuccess ∧
    fixRun2.newFailure = fixRun1.newFailure := by decide

theorem C3_success_skip (env : Env) (success : StateDict) (acc : Acc)
    (k : FeedKey) (records : List Metric) (e : StateEntry)
    (hs : success.lookup k = some e) (heq : latestOf records = e.lastTime) :
    processKey env success acc k records =
      { acc with newSuccess := acc.newSuccess ++ [(k, e)] } := by
  simp only [processKey, hs]
  rw [if_pos heq]

theorem C3_success_skip_witness :
    processKey fixEnv [(("b", "p"), ⟨2, 1000, true⟩)] ⟨[], [], []⟩ ("b", "p")
        (fixFeed "b" "p") =
      { newSuccess := [(("b", "p"), ⟨2, 1000, true⟩)], newFailure := [], report := [] } :=
  C3_success_skip fixEnv _ _ _ _ ⟨2, 1000, true⟩ (by decide) (by decide)

theorem C4_fallback_gate :
    (∀ (env : Env) (success : StateDict) (acc : Acc) (k : FeedKey)
        (records : List Metric) (lo hi : Nat),
      success.lookup k = none →
      estimateWindow (historicalTimes env.today records) = some (lo, hi) →
      (∀ r ∈ todayRecords env.today records,
        ¬ (lo ≤ tod r.earliest ∧ tod r.earliest ≤ hi)) →
      processKey env success acc k records =
        if realTimeFolderCheck env k.1 k.2 then acc
        else
          { acc with
            newFailure := acc.newFailure ++ [(k, ⟨0, latestOf records, false⟩)],
            report := acc.report ++ [windowLine k.1 k.2 lo hi] }) ∧
    (∀ (env : Env) (folder regex : String),
      env.fs.folders.lookup folder = none →
      realTimeFolderCheck env folder regex = false) := by
  constructor
  · intro env success acc k records lo hi hne hw hout
    have hany : (todayRecords env.today records).any
        (fun r => decide (lo ≤ tod r.earliest ∧ tod r.earliest ≤ hi)) = false := by
      rw [List.any_eq_false]
      intro r hr
      simpa using hout r hr
    simp only [processKey, hne, evalFeed, hw, hany]
    simp
  · intro env folder regex h
    simp only [realTimeFolderCheck, h]

end VendorMon

namespace VendorMon

theorem C4_fallback_gate_witness :
    (processKey fixEnv [] ⟨[], [], []⟩ ("b", "p") (fixFeed "b" "p") =
      if realTimeFolderCheck fixEnv "b" "p" then (⟨[], [], []⟩ : Acc)
      else ⟨[], [(("b", "p"), ⟨0, latestOf (fixFeed "b" "p"), false⟩)],
            [windowLine "b" "p" 32400 33600]⟩) ∧
    realTimeFolderCheck fixEnv "b" "p" = false :=
  ⟨C4_fallback_gate.1 fixEnv [] ⟨[], [], []⟩ ("b", "p") (fixFeed "b" "p") 32400 33600
      rfl (by decide) (by decide),
    C4_fallback_gate.2 fixEnv "b" "p" rfl⟩

theorem C5_insufficient_history :
    (∀ times : List Nat, times.length < 5 → estimateWindow times = none) ∧
    (∀ (env : Env) (success : StateDict) (acc : Acc) (k : FeedKey)
        (records : List Metric),
      success.lookup k = none →
      (historicalTimes env.today records).length < 5 →
      processKey env success acc k records = acc) := by
  have h1 : ∀ times : List Nat, times.length < 5 → estimateWindow times = none := by
    intro times h
    rw [estimateWindow, if_neg (by omega)]
  refine ⟨h1, ?_⟩
  intro env success acc k records hs hlen
  simp only [processKey, hs, evalFeed, h1 _ hlen]

theorem C5_insufficient_history_witness :
    estimateWindow [32400, 32700, 33000] = none ∧
    processKey fixEnv [] ⟨[], [], []⟩ ("x", "y") [fixMetric "x" "y" 32400] =
      ⟨[], [], []⟩ :=
  ⟨C5_insufficient_history.1 _ (by decide),
   C5_insufficient_history.2 fixEnv [] _ _ _ rfl (by decide)⟩

end VendorMon

namespace VendorMon

lemma getField_ok {row : List String} {i : Nat} (h : i < row.length) :
    ∃ v, row.get? i = some v ∧ getField row i = Except.ok v := by
  cases hr : row.get? i with
  | none =>
    rw [List.get?_eq_none] at hr
    omega
  | some v =>
    refine ⟨v, rfl, ?_⟩
    unfold getField
    rw [hr]

lemma parseEntry_capture {vr : String → Bool} {folder : String}
    {capture : PDateTime} {entry : String} {m : Metric}
    (h : parseEntry vr folder capture entry = some m) : m.capture = capture := by
  unfold parseEntry at h
  repeat' (first | (split at h) | (dsimp only at h))
  all_goals (first | (cases h; rfl) | (simp at h))

lemma parseRow_ok (vr : String → Bool) (curHour : Nat) (row : List String)
    (h : RowOk row) : ∃ ms, parseRow vr curHour row = Except.ok ms := by
  obtain ⟨h9, hdt⟩ := h
  obtain ⟨desc, hd8, hf8⟩ := getField_ok (show 8 < row.length by omega)
  obtain ⟨folder, hd1, hf1⟩ := getField_ok (show 1 < row.length by omega)
  obtain ⟨f0, hd0, hf0⟩ := getField_ok (show 0 < row.length by omega)
  have hgd : row.getD 0 "" = f0 := by
    rw [List.getD_eq_getElem?_getD, ← List.get?_eq_getElem?, hd0]
    rfl
  rw [hgd, Option.isSome_iff_exists] at hdt
  obtain ⟨capture, hc⟩ := hdt
  unfold parseRow
  rw [hf8, hf1, hf0]
  simp only [bind, Except.bind, hc]
  split
  · exact ⟨[], rfl⟩
  · exact ⟨_, rfl⟩

lemma parseRow_hour {vr : String → Bool} {curHour : Nat} {row : List String}
    {ms : List Metric} (h : parseRow vr curHour row = Except.ok ms) :
    ∀ m ∈ ms, m.capture.hour ≤ curHour := by
  unfold parseRow at h
  cases h8 : getField row 8 with
  | error e => rw [h8] at h; simp [bind, Except.bind] at h
  | ok desc =>
  cases h1 : getField row 1 with
  | error e => rw [h8, h1] at h; simp [bind, Except.bind] at h
  | ok folder =>
  cases h0 : getField row 0 with
  | error e => rw [h8, h1, h0] at h; simp [bind, Except.bind] at h
  | ok f0 =>
  rw [h8, h1, h0] at h
  simp only [bind, Except.bind] at h
  cases hdt : parseDateTime f0 with
  | none => rw [hdt] at h; simp at h
  | some capture =>
  simp only [hdt] at h
  by_cases hcond : (curHour < capture.hour ∨ desc = "None")
  · rw [if_pos hcond] at h
    cases h
    intro m hm
    cases hm
  · rw [if_neg hcond] at h
    cases h
    intro m hm
    rw [List.mem_filterMap] at hm
    obtain ⟨e, he, hpe⟩ := hm
    rw [parseEntry_capture hpe]
    push_neg at hcond
    omega

lemma parse_metrics_ok_aux (vr : String → Bool) (curHour : Nat) :
    ∀ rows : List (List String), (∀ r ∈ rows, RowOk r) → ∀ acc : List Metric,
      ∃ ms, rows.foldlM (fun acc row => do
        let ms ← parseRow vr curHour row
        pure (acc ++ ms)) acc = Except.ok ms := by
  intro rows
  induction rows with
  | nil => exact fun _ acc => ⟨acc, rfl⟩
  | cons r rs ih =>
    intro hok acc
    obtain ⟨ms, hms⟩ := parseRow_ok vr curHour r (hok r (by simp))
    rw [List.foldlM_cons]
    simp only [bind, Except.bind, hms, pure, Except.pure]
    exact ih (fun r hr => hok r (by simp [hr])) (acc ++ ms)

theorem C6_entry_robust (vr : String → Bool) (curHour : Nat)
    (rows : List (List String)) (hok : ∀ r ∈ rows, RowOk r) :
    (∃ ms, parse_metrics vr curHour rows = Except.ok ms) ∧
    (∀ (folder : String) (capture : PDateTime) (e1 e2 : List String) (bad : String),
      parseEntry vr folder capture bad = none →
      (e1 ++ bad :: e2).filterMap (parseEntry vr folder capture) =
        e1.filterMap (parseEntry vr folder capture) ++
          e2.filterMap (parseEntry vr folder capture)) := by
  constructor
  · exact parse_metrics_ok_aux vr curHour rows hok []
  · intro folder capture e1 e2 bad hbad
    rw [List.filterMap_append, List.filterMap_cons_none hbad]

theorem C6_counterexample :
    parse_metrics (fun _ => true) 23 [fixBadRow, fixGoodRow] =
      Except.error "IndexError" ∧
    parse_metrics (fun _ => true) 23 [fixGoodRow] = Except.ok [fixGoodMetric] := by
  exact ⟨by decide, by decide⟩

theorem C6_entry_robust_witness :
    (∃ ms, parse_metrics (fun _ => true) 23 [fixMixedRow] = Except.ok ms) ∧
    (["a#1,2,03:00,4,5", "malformed", "b#1,2,03:00,6,7"].filterMap
        (parseEntry (fun _ => true) "fold" ⟨2024, 1, 1, 8, 0, 0⟩) =
      ["a#1,2,03:00,4,5"].filterMap
          (parseEntry (fun _ => true) "fold" ⟨2024, 1, 1, 8, 0, 0⟩) ++
        ["b#1,2,03:00,6,7"].filterMap
          (parseEntry (fun _ => true) "fold" ⟨2024, 1, 1, 8, 0, 0⟩)) :=
  ⟨(C6_entry_robust (fun _ => true) 23 [fixMixedRow] (by decide)).1,
   (C6_entry_robust (fun _ => true) 23 [fixMixedRow] (by decide)).2 "fold"
     ⟨2024, 1, 1, 8, 0, 0⟩ ["a#1,2,03:00,4,5"] ["b#1,2,03:00,6,7"] "malformed" (by decide)⟩

lemma parse_metrics_hour_aux {vr : String → Bool} {curHour : Nat} :
    ∀ (rows : List (List String)) (acc ms : List Metric),
      (∀ m ∈ acc, m.capture.hour ≤ curHour) →
      rows.foldlM (fun acc row => do
        let ms ← parseRow vr curHour row
        pure (acc ++ ms)) acc = Except.ok ms →
      ∀ m ∈ ms, m.capture.hour ≤ curHour := by
  intro rows
  induction rows with
  | nil =>
    intro acc ms hacc h
    cases h
    exact hacc
  | cons r rs ih =>
    intro acc ms hacc h
    rw [List.foldlM_cons] at h
    cases hr : parseRow vr curHour r with
    | error e => rw [hr] at h; simp [bind, Except.bind] at h
    | ok ms' =>
      rw [hr] at h
      simp only [bind, Except.bind, pure, Except.pure] at h
      refine ih (acc ++ ms') ms ?_ h
      intro m hm
      rw [List.mem_append] at hm
      rcases hm with hm | hm
      · exact hacc m hm
      · exact parseRow_hour hr m hm

theorem C10_hour_filter :
    (∀ (vr : String → Bool) (curHour : Nat) (row : List String)
        (desc folder f0 : String) (dt : PDateTime),
      row.get? 8 = some desc → row.get? 1 = some folder → row.get? 0 = some f0 →
      parseDateTime f0 = some dt → curHour < dt.hour →
      parseRow vr curHour row = Except.ok []) ∧
    (∀ (vr : String → Bool) (curHour : Nat) (row : List String)
        (folder f0 : String) (dt : PDateTime),
      row.get? 8 = some "None" → row.get? 1 = some folder → row.get? 0 = some f0 →
      parseDateTime f0 = some dt →
      parseRow vr curHour row = Except.ok []) ∧
    (∀ (vr : String → Bool) (curHour : Nat) (rows : List (List String))
        (ms : List Metric),
      parse_metrics vr curHour rows = Except.ok ms →
      ∀ m ∈ ms, m.capture.hour ≤ curHour) := by
  refine ⟨?_, ?_, ?_⟩
  · intro vr curHour row desc folder f0 dt h8 h1 h0 hdt hlt
    have hf8 : getField row 8 = Except.ok desc := by unfold getField; rw [h8]
    have hf1 : getField row 1 = Except.ok folder := by unfold getField; rw [h1]
    have hf0 : getField row 0 = Except.ok f0 := by unfold getField; rw [h0]
    unfold parseRow
    rw [hf8, hf1, hf0]
    simp only [bind, Except.bind, hdt]
    rw [if_pos (Or.inl hlt)]
  · intro vr curHour row folder f0 dt h8 h1 h0 hdt
    have hf8 : getField row 8 = Except.ok "None" := by unfold getField; rw [h8]
    have hf1 : getField row 1 = Except.ok folder := by unfold getField; rw [h1]
    have hf0 : getField row 0 = Except.ok f0 := by unfold getField; rw [h0]
    unfold parseRow
    rw [hf8, hf1, hf0]
    simp only [bind, Except.bind, hdt]
    simp
  · intro vr curHour rows ms h
    exact parse_metrics_hour_aux rows [] ms (by simp) h

theorem C10_hour_filter_witness :
    parseRow (fun _ => true) 9 fixLateRow = Except.ok [] ∧
    parseRow (fun _ => true) 9 fixNoneRow = Except.ok [] ∧
    fixGoodMetric.capture.hour ≤ 23 :=
  ⟨C10_hour_filter.1 (fun _ => true) 9 fixLateRow "x#1,2,03:00,4,5" "fold"
      "20240101_230000" ⟨2024, 1, 1, 23, 0, 0⟩ rfl rfl rfl (by decide) (by decide),
   C10_hour_filter.2.1 (fun _ => true) 9 fixNoneRow "fold" "20240101_090000"
      ⟨2024, 1, 1, 9, 0, 0⟩ rfl rfl rfl (by decide),
   C10_hour_filter.2.2 (fun _ => true) 23 [fixGoodRow] [fixGoodMetric] (by decide)
      fixGoodMetric (by simp)⟩

end VendorMon

namespace VendorMon

lemma mem_ite_singleton {c : Prop} [Decidable c] {a b : VAlert} :
    (a ∈ if c then [b] else []) ↔ c ∧ a = b := by
  split <;> simp_all

lemma zeroByte_mem_checks (feed : VFeed) (medians : List (String × VStats))
    (past : List VFeed) (t : ℚ) :
    VAlert.zeroByte ∈ (monitorFeedChecks feed medians past t).1 ↔ 0 ∈ feed.fileSizes := by
  unfold monitorFeedChecks
  cases hpm : pyMedian ((past.filter (fun f => f.folderName == feed.folderName)).map
      (fun f => (f.totalSize : ℚ))) <;>
    simp [hpm, mem_ite_singleton, List.any_eq_true, List.mem_append]

lemma sizeRange_mem_checks (feed : VFeed) (medians : List (String × VStats))
    (past : List VFeed) (t : ℚ) :
    VAlert.sizeRange ∈ (monitorFeedChecks feed medians past t).1 ↔
      ∃ s ∈ feed.fileSizes, (s : ℚ) < feedP10 medians feed.folderName ∨
        feedP90 medians feed.folderName < (s : ℚ) := by
  unfold monitorFeedChecks
  cases hpm : pyMedian ((past.filter (fun f => f.folderName == feed.folderName)).map
      (fun f => (f.totalSize : ℚ))) <;>
    simp [hpm, mem_ite_singleton, List.any_eq_true, List.mem_append]

theorem C7_size_independent (feed : VFeed) (medians : List (String × VStats))
    (past : List VFeed) (t : ℚ)
    (hm : calculateMedianMetrics past = Except.ok medians) :
    (0 ∈ feed.fileSizes → VAlert.zeroByte ∈ (monitorFeedChecks feed medians past t).1) ∧
    ((∃ s ∈ feed.fileSizes, (s : ℚ) < feedP10 medians feed.folderName ∨
        feedP90 medians feed.folderName < (s : ℚ)) →
      VAlert.sizeRange ∈ (monitorFeedChecks feed medians past t).1) ∧
    (∀ t2 : ℚ,
      (VAlert.zeroByte ∈ (monitorFeedChecks feed medians past t).1 ↔
        VAlert.zeroByte ∈ (monitorFeedChecks feed medians past t2).1) ∧
      (VAlert.sizeRange ∈ (monitorFeedChecks feed medians past t).1 ↔
        VAlert.sizeRange ∈ (monitorFeedChecks feed medians past t2).1)) := by
  refine ⟨?_, ?_, ?_⟩
  · intro h
    exact (zeroByte_mem_checks feed medians past t).mpr h
  · intro h
    exact (sizeRange_mem_checks feed medians past t).mpr h
  · intro t2
    constructor
    · rw [zeroByte_mem_checks, zeroByte_mem_checks]
    · rw [sizeRange_mem_checks, sizeRange_mem_checks]

theorem C7_size_independent_witness :
    calculateMedianMetrics fixPastV = Except.ok [("v", ⟨1, 120, 106, 138, 0, 150⟩)] ∧
    VAlert.zeroByte ∈
      (monitorFeedChecks fixFeedV [("v", ⟨1, 120, 106, 138, 0, 150⟩)] fixPastV 0).1 ∧
    VAlert.sizeRange ∈
      (monitorFeedChecks fixFeedV [("v", ⟨1, 120, 106, 138, 0, 150⟩)] fixPastV 0).1 := by
  have hm : calculateMedianMetrics fixPastV =
      Except.ok [("v", ⟨1, 120, 106, 138, 0, 150⟩)] := by
    norm_num [calculateMedianMetrics, fixPastV, vfolders, folderCounts, folderSizes,
      folderTimes, statsFor, pyQuantiles10, pyMedian, List.insertionSort,
      List.orderedInsert, List.range_succ, List.mapM, List.mapM.loop, List.foldl,
      List.filter, List.flatMap, Except.map]
    rfl
  refine ⟨hm, ?_, ?_⟩
  · exact (C7_size_independent fixFeedV [("v", ⟨1, 120, 106, 138, 0, 150⟩)] fixPastV 0
      hm).1 (by decide)
  · exact (C7_size_independent fixFeedV [("v", ⟨1, 120, 106, 138, 0, 150⟩)] fixPastV 0
      hm).2.1 ⟨0, by decide, Or.inl (by norm_num [feedP10, List.lookup, fixFeedV])⟩

end VendorMon

namespace VendorMon

lemma render_shift (xs : List String) (s : String) :
    xs.foldl (fun acc e => acc ++ (e ++ "\n")) s =
      s ++ xs.foldl (fun acc e => acc ++ (e ++ "\n")) "" := by
  induction xs generalizing s with
  | nil => simp
  | cons x xs ih =>
    rw [List.foldl_cons, List.foldl_cons, ih ("" ++ (x ++ "\n")), ih (s ++ (x ++ "\n"))]
    simp [String.append_assoc]

theorem C8_counterexample :
    render [] = "" ∧
    fixRunBA.report =
      [windowLine "b" "p" 32400 33600, windowLine "a" "p" 32400 33600] ∧
    fixRunBA.report ≠
      [windowLine "a" "p" 32400 33600, windowLine "b" "p" 32400 33600] :=
  ⟨rfl, by decide, by decide⟩

theorem C8_render_shape :
    render [] = "" ∧
    ∀ (x : String) (xs : List String), render (x :: xs) = x ++ "\n" ++ render xs := by
  refine ⟨rfl, ?_⟩
  intro x xs
  rw [render, render, List.foldl_cons, render_shift xs ("" ++ (x ++ "\n"))]
  simp [String.append_assoc]

theorem C8_render_shape_witness :
    render [] = "" ∧ render ["x"] = "x" ++ "\n" ++ render [] :=
  ⟨C8_render_shape.1, C8_render_shape.2 "x" []⟩

end VendorMon

namespace VendorMon

lemma lookup_append_isSome {d1 d2 : StateDict} {k : FeedKey} :
    (((d1 ++ d2).lookup k).isSome = true) ↔
      ((d1.lookup k).isSome = true ∨ (d2.lookup k).isSome = true) := by
  rw [List.lookup_append]
  cases d1.lookup k <;> simp [Option.or]

lemma lookup_singleton_isSome {k k' : FeedKey} {e : StateEntry}
    (h : (([(k, e)] : StateDict).lookup k').isSome = true) : k' = k := by
  by_cases hk : k' = k
  · exact hk
  · have hbeq : (k' == k) = false := by simp [hk]
    simp [List.lookup, hbeq] at h

lemma processKey_keys (env : Env) (s : StateDict) (acc : Acc) (k : FeedKey)
    (records : List Metric) (k' : FeedKey)
    (h : (((processKey env s acc k records).newSuccess.lookup k').isSome = true) ∨
         (((processKey env s acc k records).newFailure.lookup k').isSome = true)) :
    (((acc.newSuccess.lookup k').isSome = true) ∨
      ((acc.newFailure.lookup k').isSome = true)) ∨ k' = k := by
  unfold processKey evalFeed at h
  dsimp only at h
  repeat' split at h
  all_goals (try exact Or.inl h)
  all_goals (
    rcases h with h | h <;>
    first
      | exact Or.inl (Or.inl h)
      | exact Or.inl (Or.inr h)
      | (rw [lookup_append_isSome] at h
         rcases h with h | h
         · first
             | exact Or.inl (Or.inl h)
             | exact Or.inl (Or.inr h)
         · exact Or.inr (lookup_singleton_isSome h)))

lemma checkFold_keys (env : Env) (success : StateDict) (ms : List Metric) :
    ∀ (ks : List FeedKey) (acc : Acc) (k' : FeedKey),
      ((((ks.foldl (fun acc k =>
            processKey env success acc k
              (ms.filter (fun m => (m.folder, m.regex) == k))) acc).newSuccess.lookup
          k').isSome = true) ∨
       (((ks.foldl (fun acc k =>
            processKey env success acc k
              (ms.filter (fun m => (m.folder, m.regex) == k))) acc).newFailure.lookup
          k').isSome = true)) →
      ((((acc.newSuccess.lookup k').isSome = true) ∨
        ((acc.newFailure.lookup k').isSome = true)) ∨ k' ∈ ks) := by
  intro ks
  induction ks with
  | nil => exact fun acc k' h => Or.inl h
  | cons k ks ih =>
    intro acc k' h
    rw [List.foldl_cons] at h
    rcases ih _ k' h with h' | h'
    · rcases processKey_keys env success acc k _ k' h' with h'' | h''
      · exact Or.inl h''
      · right
        simp [h'']
    · right
      simp [h']

theorem C9_state_rebuilt (env : Env) (success failure : StateDict)
    (ms : List Metric) (k' : FeedKey)
    (h : (((checkMissingFiles env success failure ms).newSuccess.lookup k').isSome = true) ∨
         (((checkMissingFiles env success failure ms).newFailure.lookup k').isSome = true)) :
    k' ∈ groupKeys ms := by
  unfold checkMissingFiles at h
  rcases checkFold_keys env success ms (groupKeys ms) ⟨[], [], []⟩ k' h with h' | h'
  · simp [List.lookup] at h'
  · exact h'

theorem C9_counterexample :
    (checkMissingFiles fixEnv [(("f", "r"), ⟨1, 5, true⟩)] [] []).newSuccess.lookup
      ("f", "r") = none ∧
    (checkMissingFiles fixEnv [(("f", "r"), ⟨1, 5, true⟩)] [] []).newFailure.lookup
      ("f", "r") = none ∧
    ([(("f", "r"), (⟨1, 5, true⟩ : StateEntry))] : StateDict).lookup ("f", "r") =
      some ⟨1, 5, true⟩ := by
  decide

theorem C9_state_rebuilt_witness :
    ((((checkMissingFiles fixEnv [] [] fixMetricsBA).newFailure.lookup
        ("b", "p")).isSome = true) ∨
      (((checkMissingFiles fixEnv [] [] fixMetricsBA).newFailure.lookup
        ("b", "p")).isSome = true)) ∧
    ("b", "p") ∈ groupKeys fixMetricsBA :=
  ⟨Or.inl (by decide),
   C9_state_rebuilt fixEnv [] [] fixMetricsBA ("b", "p") (Or.inr (by decide))⟩

end VendorMon
